import Mathlib

/-!
Shallow embedding of the minikube Cluster API provider's reconcilers
(`pkg/clusterapi/controllers/minikubecluster_controller.go` and the
MinikubeMachine controller), together with the parts of the data model
they read and write (`pkg/clusterapi/api/v1alpha1` types).

The Host Bridge (`pkg/clusterapi/internal/bridge`) is an external
collaborator whose implementation shells out to minikube; the reconcilers
only depend on the results of its four operations, so it is embedded as a
record of response functions.  Every reconciler step additionally returns
the list of bridge calls it performed, so that claims of the form
"never calls AddNode" can be stated about the trace.
-/

set_option linter.unusedVariables false

namespace MinikubeCAPI

/-- clusterv1.APIEndpoint: host and port of the control-plane endpoint.
The Go port field is an int32; ports are stored as mathematical integers
and the int32 conversion at the assignment site is modelled by `int32cast`. -/
structure APIEndpoint where
  host : String
  port : Int
  deriving DecidableEq

/-- Two's-complement int32 conversion, as applied by `int32(...)` in Go. -/
def int32cast (n : Int) : Int :=
  (n + 2147483648) % 4294967296 - 2147483648

/-- corev1.NodeAddress. -/
structure NodeAddress where
  type : String
  address : String
  deriving DecidableEq

/-- corev1.NodeInternalIP. -/
def nodeInternalIP : String := "InternalIP"

/-- config.Node: the node specification passed to the bridge AddNode call. -/
structure NodeConfig where
  name : String
  worker : Bool
  controlPlane : Bool
  kubernetesVersion : String
  deriving DecidableEq

/-- config.KubernetesConfig, restricted to the field the reconcilers read. -/
structure KubernetesConfig where
  kubernetesVersion : String
  deriving DecidableEq

/-- One entry of config.ClusterConfig.Nodes, restricted to the fields the
reconcilers read (`Name` and `IP`). -/
structure ConfigNode where
  name : String
  ip : String
  deriving DecidableEq

/-- config.ClusterConfig, restricted to the fields the reconcilers read. -/
structure ClusterConfig where
  nodes : List ConfigNode
  apiServerPort : Int
  kubernetesConfig : KubernetesConfig
  deriving DecidableEq

/-- bridge.NodeInfo as consumed by the machine reconciler. -/
structure NodeInfo where
  providerID : String
  ip : String
  running : Bool
  deriving DecidableEq

/-- bridge.HostBridge, embedded as the responses the external collaborator
gives to each operation.  `Except String` models the Go error return. -/
structure HostBridge where
  getClusterConfig : String → Except String ClusterConfig
  addNode : String → NodeConfig → Bool → Except String Unit
  getNodeInfo : String → String → Except String NodeInfo
  deleteNode : String → String → Except String Unit

/-- A record of one call made to the host bridge during a reconcile pass. -/
inductive BridgeCall where
  | getClusterConfig (profile : String)
  | addNode (profile : String) (node : NodeConfig) (deleteOnFailure : Bool)
  | getNodeInfo (profile : String) (nodeName : String)
  | deleteNode (profile : String) (nodeName : String)
  deriving DecidableEq

/-- Whether a recorded bridge call is an AddNode call. -/
def BridgeCall.isAddNode : BridgeCall → Bool
  | .addNode _ _ _ => true
  | _ => false

/-- Whether a trace contains any AddNode call. -/
def callsAddNode (calls : List BridgeCall) : Bool :=
  calls.any BridgeCall.isAddNode

/-- The part of metav1.ObjectMeta the reconcilers read and write. -/
structure ObjectMeta where
  name : String
  finalizers : List String
  deriving DecidableEq

/-- controllerutil.ContainsFinalizer. -/
def containsFinalizer (finalizers : List String) (f : String) : Bool :=
  finalizers.contains f

/-- controllerutil.AddFinalizer. -/
def addFinalizer (finalizers : List String) (f : String) : List String :=
  if finalizers.contains f then finalizers else finalizers ++ [f]

/-- controllerutil.RemoveFinalizer. -/
def removeFinalizer (finalizers : List String) (f : String) : List String :=
  finalizers.filter (fun x => x ≠ f)

/-- The machine finalizer constant of the MinikubeMachine controller. -/
def machineFinalizer : String := "minikubemachine.infrastructure.cluster.x-k8s.io"

/-- The cluster finalizer constant of the MinikubeCluster controller. -/
def clusterFinalizer : String := "minikubecluster.infrastructure.cluster.x-k8s.io"

/-- Machine phase constants of the MinikubeMachine controller. -/
def phaseProvisioning : String := "Provisioning"

/-- Machine phase constant Provisioned. -/
def phaseProvisioned : String := "Provisioned"

/-- Machine phase constant Deleting. -/
def phaseDeleting : String := "Deleting"

/-- Machine phase constant Failed. -/
def phaseFailed : String := "Failed"

/-- MinikubeMachineSpec (v1alpha1). -/
structure MinikubeMachineSpec where
  providerID : Option String
  nodeName : String
  controlPlane : Bool
  worker : Option Bool
  cpus : Int
  memory : Int
  diskSize : Int
  extraOptions : List (String × String)
  deriving DecidableEq

/-- MinikubeMachineStatus (v1alpha1); conditions are never touched by the
reconcilers and are kept as an inert list. -/
structure MinikubeMachineStatus where
  ready : Bool
  addresses : List NodeAddress
  conditions : List String
  failureReason : Option String
  failureMessage : Option String
  phase : String
  deriving DecidableEq

/-- MinikubeMachine (v1alpha1). -/
structure MinikubeMachine where
  meta : ObjectMeta
  spec : MinikubeMachineSpec
  status : MinikubeMachineStatus
  deriving DecidableEq

/-- MinikubeClusterSpec (v1alpha1). -/
structure MinikubeClusterSpec where
  profileName : String
  controlPlaneEndpoint : APIEndpoint
  driver : String
  containerRuntime : String
  networkPlugin : String
  deriving DecidableEq

/-- MinikubeClusterStatus (v1alpha1); conditions kept as an inert list. -/
structure MinikubeClusterStatus where
  ready : Bool
  conditions : List String
  failureReason : Option String
  failureMessage : Option String
  deriving DecidableEq

/-- MinikubeCluster (v1alpha1). -/
structure MinikubeCluster where
  meta : ObjectMeta
  spec : MinikubeClusterSpec
  status : MinikubeClusterStatus
  deriving DecidableEq

/-- clusterv1.Cluster, restricted to the field the reconcilers read
(its name, used as the fallback profile name). -/
structure CapiCluster where
  name : String
  deriving DecidableEq

/-- clusterv1.Machine: the owning CAPI Machine.  The reconcilers receive it
but read none of its fields on the embedded paths. -/
structure CapiMachine where
  name : String
  deriving DecidableEq

/-- ctrl.Result. -/
structure CtrlResult where
  requeue : Bool := false
  deriving DecidableEq

/-- The outcome of one machine-reconciler step: the updated MinikubeMachine
(as left in memory for the deferred patch), the returned ctrl.Result and
error, and the trace of bridge calls made. -/
structure MachineStep where
  machine : MinikubeMachine
  res : CtrlResult
  err : Option String
  calls : List BridgeCall

/-- The outcome of one cluster-reconciler step. -/
structure ClusterStep where
  cluster : MinikubeCluster
  res : CtrlResult
  err : Option String
  calls : List BridgeCall

/-- Modelled from the spec: the repository's node-name formatting helper
(`node.Name` of pkg/minikube/node) is not under src/.  Per the spec it
formats an ordinal identifier "as the canonical node-name convention";
the MinikubeMachineSpec.NodeName field documents the convention as
"m02", "m03", so an ordinal is rendered as "m" followed by the
two-digit-padded decimal ordinal. -/
def node_Name (id : Nat) : String :=
  if id < 10 then "m0" ++ toString id else "m" ++ toString id

/-- The decimal value of a non-empty all-digit character list, `none` when
any character is not a digit. -/
def digitsVal? (cs : List Char) : Option Nat :=
  cs.foldl (fun acc c =>
    match acc with
    | none => none
    | some n => if c.isDigit then some (n * 10 + (c.toNat - 48)) else none) (some 0)

/-- Modelled from the spec: the repository's node-name parsing helper
(`node.ID` of pkg/minikube/node) is not under src/.  Per the spec it
parses "the last existing node's ordinal identifier" from its canonical
name and can fail on an unparseable name; it is the partial inverse of
`node_Name`, reading the decimal ordinal after the leading "m". -/
def node_ID (s : String) : Option Nat :=
  match s.toList with
  | 'm' :: rest => if rest = [] then none else digitsVal? rest
  | _ => none

/-- The `lastID` computed by the provisioning path of the MinikubeMachine
controller: the count of existing nodes, overridden by the parsed ordinal
of the last existing node's name when that parse succeeds. -/
def provisionLastID (clusterConfig : ClusterConfig) : Nat :=
  match clusterConfig.nodes.getLast? with
  | some lastNode =>
      match node_ID lastNode.name with
      | some id => id
      | none => clusterConfig.nodes.length
  | none => clusterConfig.nodes.length

/-- provisionNode of the MinikubeMachine controller. -/
def provisionNode (b : HostBridge) (profileName : String)
    (minikubeCluster : MinikubeCluster) (machine : CapiMachine)
    (minikubeMachine : MinikubeMachine) : MachineStep :=
  -- Set phase to provisioning
  let mm0 := { minikubeMachine with
    status := { minikubeMachine.status with phase := phaseProvisioning } }
  -- Get cluster config to determine next node name
  match b.getClusterConfig profileName with
  | .error e =>
      { machine := { mm0 with status := { mm0.status with
            phase := phaseFailed,
            failureReason := some "ClusterConfigNotFound",
            failureMessage := some ("Failed to get cluster config: " ++ e) } },
        res := {}, err := some e,
        calls := [.getClusterConfig profileName] }
  | .ok clusterConfig =>
      -- Determine node name if not specified
      let mm1 :=
        if minikubeMachine.spec.nodeName = "" then
          { mm0 with spec := { mm0.spec with
              nodeName := node_Name (provisionLastID clusterConfig + 1) } }
        else mm0
      let nodeName := mm1.spec.nodeName
      -- Determine worker flag
      let worker := match mm1.spec.worker with
        | some w => w
        | none => true
      -- Create node config
      let newNode : NodeConfig := {
        name := nodeName,
        worker := worker,
        controlPlane := mm1.spec.controlPlane,
        kubernetesVersion := clusterConfig.kubernetesConfig.kubernetesVersion }
      -- Add node via host bridge (delete-on-failure disabled)
      match b.addNode profileName newNode false with
      | .error e =>
          { machine := { mm1 with status := { mm1.status with
                phase := phaseFailed,
                failureReason := some "NodeProvisionFailed",
                failureMessage := some ("Failed to provision node: " ++ e) } },
            res := {}, err := some e,
            calls := [.getClusterConfig profileName,
                      .addNode profileName newNode false] }
      | .ok _ =>
          -- Get node info to update status
          match b.getNodeInfo profileName nodeName with
          | .error _ =>
              { machine := mm1, res := { requeue := true }, err := none,
                calls := [.getClusterConfig profileName,
                          .addNode profileName newNode false,
                          .getNodeInfo profileName nodeName] }
          | .ok nodeInfo =>
              { machine := { mm1 with
                    spec := { mm1.spec with providerID := some nodeInfo.providerID },
                    status := { mm1.status with
                      phase := phaseProvisioned,
                      ready := true,
                      addresses := [{ type := nodeInternalIP, address := nodeInfo.ip }],
                      failureReason := none,
                      failureMessage := none } },
                res := {}, err := none,
                calls := [.getClusterConfig profileName,
                          .addNode profileName newNode false,
                          .getNodeInfo profileName nodeName] }

/-- reconcileExistingNode of the MinikubeMachine controller. -/
def reconcileExistingNode (b : HostBridge) (profileName : String)
    (minikubeMachine : MinikubeMachine) : MachineStep :=
  match b.getNodeInfo profileName minikubeMachine.spec.nodeName with
  | .error e =>
      { machine := { minikubeMachine with
            status := { minikubeMachine.status with ready := false } },
        res := {}, err := some e,
        calls := [.getNodeInfo profileName minikubeMachine.spec.nodeName] }
  | .ok nodeInfo =>
      { machine := { minikubeMachine with
            status := { minikubeMachine.status with
              phase := phaseProvisioned,
              ready := nodeInfo.running,
              addresses := [{ type := nodeInternalIP, address := nodeInfo.ip }] } },
        res := {}, err := none,
        calls := [.getNodeInfo profileName minikubeMachine.spec.nodeName] }

/-- The effective profile name: the MinikubeCluster spec value, or the
owning CAPI Cluster's name when the spec value is empty. -/
def effectiveProfileName (cluster : CapiCluster) (minikubeCluster : MinikubeCluster) : String :=
  if minikubeCluster.spec.profileName = "" then cluster.name
  else minikubeCluster.spec.profileName

/-- reconcileNormal of the MinikubeMachine controller. -/
def machineReconcileNormal (b : HostBridge) (cluster : CapiCluster)
    (minikubeCluster : MinikubeCluster) (machine : CapiMachine)
    (minikubeMachine : MinikubeMachine) : MachineStep :=
  -- Add finalizer if not present
  if containsFinalizer minikubeMachine.meta.finalizers machineFinalizer = false then
    { machine := { minikubeMachine with meta := { minikubeMachine.meta with
          finalizers := addFinalizer minikubeMachine.meta.finalizers machineFinalizer } },
      res := { requeue := true }, err := none, calls := [] }
  else
    -- Determine the profile name
    let profileName := effectiveProfileName cluster minikubeCluster
    -- Check if node already exists
    match minikubeMachine.spec.providerID with
    | some pid =>
        if pid ≠ "" then
          -- Node already exists, just update status
          reconcileExistingNode b profileName minikubeMachine
        else
          provisionNode b profileName minikubeCluster machine minikubeMachine
    | none =>
        -- Provision new node
        provisionNode b profileName minikubeCluster machine minikubeMachine

/-- reconcileDelete of the MinikubeMachine controller.  The DeleteNode
failure is only logged in the source; the trace records whether the call
was made, and its result never influences the outcome. -/
def machineReconcileDelete (b : HostBridge) (cluster : CapiCluster)
    (minikubeCluster : MinikubeCluster) (machine : CapiMachine)
    (minikubeMachine : MinikubeMachine) : MachineStep :=
  let mm0 := { minikubeMachine with
    status := { minikubeMachine.status with phase := phaseDeleting } }
  -- Determine the profile name
  let profileName := effectiveProfileName cluster minikubeCluster
  -- Delete the node if it exists; failure is logged and ignored
  let calls :=
    if mm0.spec.nodeName ≠ "" then
      [BridgeCall.deleteNode profileName mm0.spec.nodeName]
    else []
  -- Remove finalizer
  { machine := { mm0 with meta := { mm0.meta with
        finalizers := removeFinalizer mm0.meta.finalizers machineFinalizer } },
    res := {}, err := none, calls := calls }

/-- reconcileNormal of the MinikubeCluster controller. -/
def clusterReconcileNormal (b : HostBridge) (cluster : CapiCluster)
    (minikubeCluster : MinikubeCluster) : ClusterStep :=
  -- Add finalizer if not present
  if containsFinalizer minikubeCluster.meta.finalizers clusterFinalizer = false then
    { cluster := { minikubeCluster with meta := { minikubeCluster.meta with
          finalizers := addFinalizer minikubeCluster.meta.finalizers clusterFinalizer } },
      res := { requeue := true }, err := none, calls := [] }
  else
    -- Determine the profile name
    let profileName := effectiveProfileName cluster minikubeCluster
    -- Get cluster config from host
    match b.getClusterConfig profileName with
    | .error e =>
        { cluster := { minikubeCluster with status := { minikubeCluster.status with
              ready := false,
              failureReason := some "ClusterConfigNotFound",
              failureMessage := some ("Failed to get cluster config: " ++ e) } },
          res := {}, err := some e,
          calls := [.getClusterConfig profileName] }
    | .ok clusterConfig =>
        -- Set the control plane endpoint if not already set
        let mc1 :=
          if minikubeCluster.spec.controlPlaneEndpoint.host = "" then
            match clusterConfig.nodes.head? with
            | some primaryNode =>
                if primaryNode.ip ≠ "" then
                  { minikubeCluster with spec := { minikubeCluster.spec with
                      controlPlaneEndpoint := {
                        host := primaryNode.ip,
                        port := int32cast clusterConfig.apiServerPort } } }
                else minikubeCluster
            | none => minikubeCluster
          else minikubeCluster
        -- Update status
        { cluster := { mc1 with status := { mc1.status with
              ready := true,
              failureReason := none,
              failureMessage := none } },
          res := {}, err := none,
          calls := [.getClusterConfig profileName] }

/-- reconcileDelete of the MinikubeCluster controller: it deliberately
never calls the host bridge and only removes the finalizer. -/
def clusterReconcileDelete (b : HostBridge) (cluster : CapiCluster)
    (minikubeCluster : MinikubeCluster) : ClusterStep :=
  -- Remove finalizer
  { cluster := { minikubeCluster with meta := { minikubeCluster.meta with
        finalizers := removeFinalizer minikubeCluster.meta.finalizers clusterFinalizer } },
    res := {}, err := none, calls := [] }

/-- The concatenated bridge-call trace of `n` consecutive normal reconciles
of the same MinikubeMachine, each pass reconciling the machine produced by
the previous pass. -/
def machineReconcileNormalCalls (b : HostBridge) (cluster : CapiCluster)
    (minikubeCluster : MinikubeCluster) (machine : CapiMachine) :
    Nat → MinikubeMachine → List BridgeCall
  | 0, _ => []
  | n + 1, mm =>
      let step := machineReconcileNormal b cluster minikubeCluster machine mm
      step.calls ++ machineReconcileNormalCalls b cluster minikubeCluster machine n step.machine

/-! Concrete fixtures used by witnesses and counterexamples. -/

/-- A CAPI Cluster named c1. -/
def clW : CapiCluster := { name := "c1" }

/-- A CAPI Machine fixture. -/
def mW : CapiMachine := { name := "c1-worker-1" }

/-- A kubernetes config fixture. -/
def kcW : KubernetesConfig := { kubernetesVersion := "v1.28.3" }

/-- A cluster config with no nodes and API server port 8443. -/
def ccEmpty : ClusterConfig :=
  { nodes := [], apiServerPort := 8443, kubernetesConfig := kcW }

/-- A cluster config whose single node has address 10.0.0.5, port 8443. -/
def ccOneNode : ClusterConfig :=
  { nodes := [{ name := "m01", ip := "10.0.0.5" }],
    apiServerPort := 8443, kubernetesConfig := kcW }

/-- A cluster config with two nodes named m01 and m02. -/
def ccTwoNodes : ClusterConfig :=
  { nodes := [{ name := "m01", ip := "10.0.0.4" }, { name := "m02", ip := "10.0.0.5" }],
    apiServerPort := 8443, kubernetesConfig := kcW }

/-- A node info fixture. -/
def niW : NodeInfo := { providerID := "minikube://minikube/m02", ip := "10.0.0.5", running := true }

/-- A bridge on which every operation fails. -/
def bAllFail : HostBridge :=
  { getClusterConfig := fun _ => .error "boom",
    addNode := fun _ _ _ => .error "boom",
    getNodeInfo := fun _ _ => .error "boom",
    deleteNode := fun _ _ => .error "boom" }

/-- A bridge on which every operation succeeds. -/
def bOk : HostBridge :=
  { getClusterConfig := fun _ => .ok ccTwoNodes,
    addNode := fun _ _ _ => .ok (),
    getNodeInfo := fun _ _ => .ok niW,
    deleteNode := fun _ _ => .ok () }

/-- A bridge whose AddNode fails after a successful config query. -/
def bAddFail : HostBridge :=
  { getClusterConfig := fun _ => .ok ccTwoNodes,
    addNode := fun _ _ _ => .error "add failed",
    getNodeInfo := fun _ _ => .ok niW,
    deleteNode := fun _ _ => .ok () }

/-- A bridge whose node-info query fails after a successful add. -/
def bFailInfo : HostBridge :=
  { getClusterConfig := fun _ => .ok ccTwoNodes,
    addNode := fun _ _ _ => .ok (),
    getNodeInfo := fun _ _ => .error "describe failed",
    deleteNode := fun _ _ => .ok () }

/-- A bridge reporting an empty node list. -/
def bEmptyNodes : HostBridge :=
  { getClusterConfig := fun _ => .ok ccEmpty,
    addNode := fun _ _ _ => .ok (),
    getNodeInfo := fun _ _ => .error "not found",
    deleteNode := fun _ _ => .ok () }

/-- A bridge reporting one node with address 10.0.0.5 and port 8443. -/
def bOneNode : HostBridge :=
  { getClusterConfig := fun _ => .ok ccOneNode,
    addNode := fun _ _ _ => .ok (),
    getNodeInfo := fun _ _ => .ok niW,
    deleteNode := fun _ _ => .ok () }

/-- A MinikubeCluster with its finalizer present and no endpoint set. -/
def mcW : MinikubeCluster :=
  { meta := { name := "c1", finalizers := [clusterFinalizer] },
    spec := { profileName := "minikube",
              controlPlaneEndpoint := { host := "", port := 0 },
              driver := "docker", containerRuntime := "containerd", networkPlugin := "" },
    status := { ready := false, conditions := [], failureReason := none, failureMessage := none } }

/-- A MinikubeCluster with its finalizer present and the endpoint already set. -/
def mcSet : MinikubeCluster :=
  { mcW with spec := { mcW.spec with
      controlPlaneEndpoint := { host := "192.168.49.2", port := 8443 } } }

/-- A MinikubeCluster without its finalizer. -/
def mcNoFin : MinikubeCluster :=
  { mcW with meta := { mcW.meta with finalizers := [] } }

/-- A MinikubeMachine with its finalizer present, no provider ID and no node name. -/
def mmNoName : MinikubeMachine :=
  { meta := { name := "c1-worker-1", finalizers := [machineFinalizer] },
    spec := { providerID := none, nodeName := "", controlPlane := false,
              worker := some true, cpus := 2, memory := 2048, diskSize := 20000,
              extraOptions := [] },
    status := { ready := false, addresses := [], conditions := [],
                failureReason := none, failureMessage := none, phase := "" } }

/-- A MinikubeMachine with a provider ID already set. -/
def mmWithPid : MinikubeMachine :=
  { mmNoName with spec := { mmNoName.spec with
      providerID := some "p-123", nodeName := "m02" } }

/-- A MinikubeMachine with a node name assigned but no provider ID. -/
def mmNamed : MinikubeMachine :=
  { mmNoName with spec := { mmNoName.spec with nodeName := "m02" } }

/-- A MinikubeMachine without its finalizer. -/
def mmNoFin : MinikubeMachine :=
  { mmNoName with meta := { mmNoName.meta with finalizers := [] } }

/-- C5: a Cluster deletion reconcile never invokes any Node Provisioner
operation; it only removes the cluster finalizer, leaves spec and status
untouched, and returns success with no requeue. -/
theorem cluster_delete_non_destructive (b : HostBridge) (cluster : CapiCluster)
    (mc : MinikubeCluster) :
    (clusterReconcileDelete b cluster mc).calls = [] ∧
    (clusterReconcileDelete b cluster mc).cluster.meta.finalizers
      = removeFinalizer mc.meta.finalizers clusterFinalizer ∧
    (clusterReconcileDelete b cluster mc).cluster.spec = mc.spec ∧
    (clusterReconcileDelete b cluster mc).cluster.status = mc.status ∧
    (clusterReconcileDelete b cluster mc).err = none ∧
    (clusterReconcileDelete b cluster mc).res.requeue = false :=
  ⟨rfl, rfl, rfl, rfl, rfl, rfl⟩

/-- C6: a Machine deletion reconcile removes the machine finalizer and
returns no error in the same pass — for every bridge, including one whose
DeleteNode fails; the phase is set to Deleting, and DeleteNode is attempted
exactly when Spec.NodeName is non-empty. -/
theorem machine_delete_best_effort (b : HostBridge) (cluster : CapiCluster)
    (mc : MinikubeCluster) (machine : CapiMachine) (mm : MinikubeMachine) :
    (machineReconcileDelete b cluster mc machine mm).machine.meta.finalizers
      = removeFinalizer mm.meta.finalizers machineFinalizer ∧
    (machineReconcileDelete b cluster mc machine mm).err = none ∧
    (machineReconcileDelete b cluster mc machine mm).machine.status.phase = phaseDeleting ∧
    (mm.spec.nodeName ≠ "" →
      (machineReconcileDelete b cluster mc machine mm).calls
        = [BridgeCall.deleteNode (effectiveProfileName cluster mc) mm.spec.nodeName]) ∧
    (mm.spec.nodeName = "" →
      (machineReconcileDelete b cluster mc machine mm).calls = []) := by
  refine ⟨rfl, rfl, rfl, ?_, ?_⟩
  · intro h
    simp [machineReconcileDelete, h]
  · intro h
    simp [machineReconcileDelete, h]

/-- Witness for C6 at a concrete machine with node name m02 and a bridge
whose DeleteNode fails. -/
theorem machine_delete_best_effort_witness :
    (machineReconcileDelete bAllFail clW mcW mW mmNamed).machine.meta.finalizers
      = removeFinalizer mmNamed.meta.finalizers machineFinalizer ∧
    (machineReconcileDelete bAllFail clW mcW mW mmNamed).calls
      = [BridgeCall.deleteNode (effectiveProfileName clW mcW) mmNamed.spec.nodeName] :=
  ⟨(machine_delete_best_effort bAllFail clW mcW mW mmNamed).1,
   (machine_delete_best_effort bAllFail clW mcW mW mmNamed).2.2.2.1 (by decide)⟩

/-- C9: on a normal reconcile where the finalizer is absent, the machine
reconciler (and likewise the cluster reconciler) adds the finalizer and
returns an explicit requeue with no error and no bridge call, leaving spec
and status untouched. -/
theorem finalizer_gating (b : HostBridge) (cluster : CapiCluster)
    (minikubeCluster : MinikubeCluster) (machine : CapiMachine)
    (mm : MinikubeMachine) (mc : MinikubeCluster) :
    (containsFinalizer mm.meta.finalizers machineFinalizer = false →
      (machineReconcileNormal b cluster minikubeCluster machine mm).calls = [] ∧
      (machineReconcileNormal b cluster minikubeCluster machine mm).res.requeue = true ∧
      (machineReconcileNormal b cluster minikubeCluster machine mm).err = none ∧
      (machineReconcileNormal b cluster minikubeCluster machine mm).machine.meta.finalizers
        = addFinalizer mm.meta.finalizers machineFinalizer ∧
      (machineReconcileNormal b cluster minikubeCluster machine mm).machine.spec = mm.spec ∧
      (machineReconcileNormal b cluster minikubeCluster machine mm).machine.status = mm.status) ∧
    (containsFinalizer mc.meta.finalizers clusterFinalizer = false →
      (clusterReconcileNormal b cluster mc).calls = [] ∧
      (clusterReconcileNormal b cluster mc).res.requeue = true ∧
      (clusterReconcileNormal b cluster mc).err = none ∧
      (clusterReconcileNormal b cluster mc).cluster.meta.finalizers
        = addFinalizer mc.meta.finalizers clusterFinalizer ∧
      (clusterReconcileNormal b cluster mc).cluster.spec = mc.spec ∧
      (clusterReconcileNormal b cluster mc).cluster.status = mc.status) := by
  constructor
  · intro h
    simp [machineReconcileNormal, h]
  · intro h
    simp [clusterReconcileNormal, h]

/-- Witness for C9 at a fresh machine and a fresh cluster with no
finalizers; no bridge call is made even on an all-failing bridge. -/
theorem finalizer_gating_witness :
    ((machineReconcileNormal bAllFail clW mcW mW mmNoFin).calls = [] ∧
      (machineReconcileNormal bAllFail clW mcW mW mmNoFin).res.requeue = true) ∧
    ((clusterReconcileNormal bAllFail clW mcNoFin).calls = [] ∧
      (clusterReconcileNormal bAllFail clW mcNoFin).res.requeue = true) :=
  ⟨⟨((finalizer_gating bAllFail clW mcW mW mmNoFin mcNoFin).1 (by decide)).1,
    ((finalizer_gating bAllFail clW mcW mW mmNoFin mcNoFin).1 (by decide)).2.1⟩,
   ⟨((finalizer_gating bAllFail clW mcW mW mmNoFin mcNoFin).2 (by decide)).1,
    ((finalizer_gating bAllFail clW mcW mW mmNoFin mcNoFin).2 (by decide)).2.1⟩⟩

/-- A trace concatenation contains an AddNode call iff one side does. -/
theorem callsAddNode_append (a c : List BridgeCall) :
    callsAddNode (a ++ c) = (callsAddNode a || callsAddNode c) := by
  simp [callsAddNode]

/-- One normal reconcile of a machine whose provider ID is set makes no
AddNode call and leaves the provider ID unchanged. -/
theorem machineReconcileNormal_preserves (b : HostBridge) (cluster : CapiCluster)
    (mc : MinikubeCluster) (machine : CapiMachine) (mm : MinikubeMachine)
    (p : String) (hp : mm.spec.providerID = some p) (hne : p ≠ "") :
    callsAddNode (machineReconcileNormal b cluster mc machine mm).calls = false ∧
    (machineReconcileNormal b cluster mc machine mm).machine.spec.providerID = some p := by
  by_cases hf : containsFinalizer mm.meta.finalizers machineFinalizer = false
  · simp [machineReconcileNormal, hf, callsAddNode, hp]
  · simp only [Bool.not_eq_false] at hf
    simp only [machineReconcileNormal, hf, Bool.true_eq_false, if_false, hp, hne,
      ne_eq, not_false_eq_true, if_true]
    cases hni : b.getNodeInfo (effectiveProfileName cluster mc) mm.spec.nodeName <;>
      simp [reconcileExistingNode, hni, callsAddNode, BridgeCall.isAddNode, hp]

/-- Iterated normal reconciles of a machine whose provider ID is set make
no AddNode call, for any number of passes. -/
theorem machineReconcileNormalCalls_no_addNode (b : HostBridge) (cluster : CapiCluster)
    (mc : MinikubeCluster) (machine : CapiMachine) :
    ∀ (n : Nat) (mm : MinikubeMachine) (p : String),
      mm.spec.providerID = some p → p ≠ "" →
      callsAddNode (machineReconcileNormalCalls b cluster mc machine n mm) = false := by
  intro n
  induction n with
  | zero =>
      intro mm p hp hne
      simp [machineReconcileNormalCalls, callsAddNode]
  | succ k ih =>
      intro mm p hp hne
      have h := machineReconcileNormal_preserves b cluster mc machine mm p hp hne
      simp only [machineReconcileNormalCalls, callsAddNode_append, Bool.or_eq_false_iff]
      exact ⟨h.1, ih _ p h.2 hne⟩

/-- C1: for a Machine whose Spec.ProviderID is non-nil and non-empty, the
normal reconciliation path with the finalizer present takes the
existing-node branch, and however many times normal reconciliation is
iterated from that Machine, no pass ever makes an AddNode call. -/
theorem providerID_set_never_addNode (b : HostBridge) (cluster : CapiCluster)
    (mc : MinikubeCluster) (machine : CapiMachine) (mm : MinikubeMachine)
    (p : String) (hp : mm.spec.providerID = some p) (hne : p ≠ "") :
    (containsFinalizer mm.meta.finalizers machineFinalizer = true →
      machineReconcileNormal b cluster mc machine mm
        = reconcileExistingNode b (effectiveProfileName cluster mc) mm) ∧
    ∀ n, callsAddNode (machineReconcileNormalCalls b cluster mc machine n mm) = false := by
  constructor
  · intro hf
    simp [machineReconcileNormal, hf, hp, hne]
  · intro n
    exact machineReconcileNormalCalls_no_addNode b cluster mc machine n mm p hp hne

/-- Witness for C1 at a machine whose provider ID is p-123, iterating the
reconciler three times over a fully succeeding bridge. -/
theorem providerID_set_never_addNode_witness :
    (machineReconcileNormal bOk clW mcW mW mmWithPid
      = reconcileExistingNode bOk (effectiveProfileName clW mcW) mmWithPid) ∧
    callsAddNode (machineReconcileNormalCalls bOk clW mcW mW 3 mmWithPid) = false :=
  ⟨(providerID_set_never_addNode bOk clW mcW mW mmWithPid "p-123" rfl (by decide)).1 (by decide),
   (providerID_set_never_addNode bOk clW mcW mW mmWithPid "p-123" rfl (by decide)).2 3⟩

/-- C2: the cluster reconciler never changes a non-empty control-plane
endpoint, whatever the bridge reports; and when the endpoint host is empty
it derives the endpoint from the first node's address and the configured
API server port. -/
theorem endpoint_set_once (b : HostBridge) (cluster : CapiCluster) (mc : MinikubeCluster) :
    (mc.spec.controlPlaneEndpoint.host ≠ "" →
      (clusterReconcileNormal b cluster mc).cluster.spec.controlPlaneEndpoint
        = mc.spec.controlPlaneEndpoint) ∧
    (∀ cc node rest,
      containsFinalizer mc.meta.finalizers clusterFinalizer = true →
      mc.spec.controlPlaneEndpoint.host = "" →
      b.getClusterConfig (effectiveProfileName cluster mc) = .ok cc →
      cc.nodes = node :: rest →
      node.ip ≠ "" →
      (clusterReconcileNormal b cluster mc).cluster.spec.controlPlaneEndpoint
        = { host := node.ip, port := int32cast cc.apiServerPort }) := by
  constructor
  · intro hh
    by_cases hf : containsFinalizer mc.meta.finalizers clusterFinalizer = false
    · simp [clusterReconcileNormal, hf]
    · simp only [Bool.not_eq_false] at hf
      simp only [clusterReconcileNormal, hf, Bool.true_eq_false, if_false]
      cases hcc : b.getClusterConfig (effectiveProfileName cluster mc) <;>
        simp [hcc, hh]
  · intro cc node rest hf hh hcc hnodes hip
    simp [clusterReconcileNormal, hf, hcc, hh, hnodes, hip]

/-- Witness for C2: a cluster whose endpoint host is already 192.168.49.2
keeps it unchanged even though the bridge reports primary node IP 10.0.0.5,
and a cluster with an empty endpoint host gets the derived endpoint. -/
theorem endpoint_set_once_witness :
    (clusterReconcileNormal bOneNode clW mcSet).cluster.spec.controlPlaneEndpoint
      = mcSet.spec.controlPlaneEndpoint ∧
    (clusterReconcileNormal bOneNode clW mcW).cluster.spec.controlPlaneEndpoint
      = { host := "10.0.0.5", port := int32cast ccOneNode.apiServerPort } :=
  ⟨(endpoint_set_once bOneNode clW mcSet).1 (by decide),
   (endpoint_set_once bOneNode clW mcW).2 ccOneNode
     { name := "m01", ip := "10.0.0.5" } [] (by decide) rfl rfl rfl (by decide)⟩

/-- C8: reconciling an existing node makes exactly one bridge call, the
node-info query; on success the phase becomes Provisioned, readiness equals
the live running flag and the address is the live IP; on failure readiness
is set false, the error is returned, and the phase is left unchanged (in
particular it stays Provisioned when it was Provisioned, never Failed). -/
theorem existing_node_describe (b : HostBridge) (profile : String) (mm : MinikubeMachine) :
    (reconcileExistingNode b profile mm).calls
      = [BridgeCall.getNodeInfo profile mm.spec.nodeName] ∧
    (∀ info, b.getNodeInfo profile mm.spec.nodeName = .ok info →
      (reconcileExistingNode b profile mm).machine.status.phase = phaseProvisioned ∧
      (reconcileExistingNode b profile mm).machine.status.ready = info.running ∧
      (reconcileExistingNode b profile mm).machine.status.addresses
        = [{ type := nodeInternalIP, address := info.ip }] ∧
      (reconcileExistingNode b profile mm).err = none) ∧
    (∀ e, b.getNodeInfo profile mm.spec.nodeName = .error e →
      (reconcileExistingNode b profile mm).machine.status.ready = false ∧
      (reconcileExistingNode b profile mm).err = some e ∧
      (reconcileExistingNode b profile mm).machine.status.phase = mm.status.phase ∧
      (mm.status.phase = phaseProvisioned →
        (reconcileExistingNode b profile mm).machine.status.phase = phaseProvisioned)) := by
  refine ⟨?_, ?_, ?_⟩
  · cases hni : b.getNodeInfo profile mm.spec.nodeName <;>
      simp [reconcileExistingNode, hni]
  · intro info hni
    simp [reconcileExistingNode, hni]
  · intro e hni
    simp [reconcileExistingNode, hni]

/-- Witness for C8: success on a running node yields readiness true; a
describe failure flips readiness false and returns the error while keeping
the phase. -/
theorem existing_node_describe_witness :
    (reconcileExistingNode bOk "minikube" mmWithPid).machine.status.ready = niW.running ∧
    (reconcileExistingNode bAllFail "minikube" mmWithPid).machine.status.ready = false ∧
    (reconcileExistingNode bAllFail "minikube" mmWithPid).err = some "boom" :=
  ⟨((existing_node_describe bOk "minikube" mmWithPid).2.1 niW rfl).2.1,
   ((existing_node_describe bAllFail "minikube" mmWithPid).2.2 "boom" rfl).1,
   ((existing_node_describe bAllFail "minikube" mmWithPid).2.2 "boom" rfl).2.1⟩

/-- C3 counterexample: for cluster c1 with its finalizer present, a
successful profile-configuration query returning an empty node list does
NOT leave readiness false — the reconciler marks status ready true. -/
theorem cluster_empty_nodes_ready_counterexample :
    (clusterReconcileNormal bEmptyNodes clW mcW).cluster.status.ready = true := by
  decide

/-- C3 amended: when the profile-configuration query succeeds with an empty
node list, the endpoint stays unchanged (it remains unset) but readiness is
set true, not left false; once a node with address 10.0.0.5 exists and the
API port is 8443 while the endpoint host is empty, the endpoint becomes
10.0.0.5:8443. -/
theorem cluster_empty_nodes_then_endpoint (b : HostBridge) (cluster : CapiCluster)
    (mc : MinikubeCluster) (cc : ClusterConfig)
    (hf : containsFinalizer mc.meta.finalizers clusterFinalizer = true)
    (hcc : b.getClusterConfig (effectiveProfileName cluster mc) = .ok cc) :
    (cc.nodes = [] →
      (clusterReconcileNormal b cluster mc).cluster.status.ready = true ∧
      (clusterReconcileNormal b cluster mc).cluster.spec.controlPlaneEndpoint
        = mc.spec.controlPlaneEndpoint) ∧
    (∀ nm rest,
      mc.spec.controlPlaneEndpoint.host = "" →
      cc.nodes = { name := nm, ip := "10.0.0.5" } :: rest →
      cc.apiServerPort = 8443 →
      (clusterReconcileNormal b cluster mc).cluster.status.ready = true ∧
      (clusterReconcileNormal b cluster mc).cluster.spec.controlPlaneEndpoint
        = { host := "10.0.0.5", port := 8443 }) := by
  constructor
  · intro hempty
    by_cases hh : mc.spec.controlPlaneEndpoint.host = "" <;>
      simp [clusterReconcileNormal, hf, hcc, hempty, hh]
  · intro nm rest hh hnodes hport
    simp [clusterReconcileNormal, hf, hcc, hh, hnodes, hport]
    decide

/-- Witness for C3 (amended) at cluster c1: ready with zero nodes, and the
endpoint 10.0.0.5:8443 once the node exists. -/
theorem cluster_empty_nodes_then_endpoint_witness :
    ((clusterReconcileNormal bEmptyNodes clW mcW).cluster.status.ready = true ∧
      (clusterReconcileNormal bEmptyNodes clW mcW).cluster.spec.controlPlaneEndpoint
        = mcW.spec.controlPlaneEndpoint) ∧
    (clusterReconcileNormal bOneNode clW mcW).cluster.spec.controlPlaneEndpoint
      = { host := "10.0.0.5", port := 8443 } :=
  ⟨(cluster_empty_nodes_then_endpoint bEmptyNodes clW mcW ccEmpty (by decide) rfl).1 rfl,
   ((cluster_empty_nodes_then_endpoint bOneNode clW mcW ccOneNode (by decide) rfl).2
      "m01" [] rfl rfl rfl).2⟩

/-- C4: when Spec.NodeName is empty and the profile-configuration query
succeeds, the generated node name is the canonical name of ordinal
`lastID + 1` and is persisted into Spec.NodeName, where `lastID` is the
parsed ordinal of the last existing node's name, falling back to the count
of existing nodes when the list is empty or the last name is unparseable. -/
theorem node_name_monotonic (b : HostBridge) (profile : String)
    (mc : MinikubeCluster) (machine : CapiMachine) (mm : MinikubeMachine)
    (cc : ClusterConfig)
    (hname : mm.spec.nodeName = "")
    (hcc : b.getClusterConfig profile = .ok cc) :
    (provisionNode b profile mc machine mm).machine.spec.nodeName
      = node_Name (provisionLastID cc + 1) ∧
    (∀ l k, cc.nodes.getLast? = some l → node_ID l.name = some k →
      provisionLastID cc = k) ∧
    (∀ l, cc.nodes.getLast? = some l → node_ID l.name = none →
      provisionLastID cc = cc.nodes.length) ∧
    (cc.nodes.getLast? = none → provisionLastID cc = cc.nodes.length) := by
  refine ⟨?_, ?_, ?_, ?_⟩
  · simp only [provisionNode, hcc, hname]
    split <;> simp_all
    split <;> simp_all
  · intro l k hl hk
    simp [provisionLastID, hl, hk]
  · intro l hl hk
    simp [provisionLastID, hl, hk]
  · intro hl
    simp [provisionLastID, hl]

/-- Witness for C4: with existing nodes m01, m02 the generated name is m03
and is persisted into the spec. -/
theorem node_name_monotonic_witness :
    (provisionNode bOk "minikube" mcW mW mmNoName).machine.spec.nodeName = "m03" := by
  rw [(node_name_monotonic bOk "minikube" mcW mW mmNoName ccTwoNodes rfl rfl).1]
  rfl

/-- C7: on the provisioning path, a failed profile-configuration query
yields phase Failed with reason ClusterConfigNotFound; a failed add-node
call (after a successful query) yields phase Failed with reason
NodeProvisionFailed; in both cases the failure message is set and the
error is returned. -/
theorem provision_failure_reasons (b : HostBridge) (profile : String)
    (mc : MinikubeCluster) (machine : CapiMachine) (mm : MinikubeMachine) :
    (∀ e, b.getClusterConfig profile = .error e →
      (provisionNode b profile mc machine mm).machine.status.phase = phaseFailed ∧
      (provisionNode b profile mc machine mm).machine.status.failureReason
        = some "ClusterConfigNotFound" ∧
      (provisionNode b profile mc machine mm).machine.status.failureMessage
        = some ("Failed to get cluster config: " ++ e) ∧
      (provisionNode b profile mc machine mm).err = some e) ∧
    (∀ cc e, b.getClusterConfig profile = .ok cc →
      (∀ nodeCfg, b.addNode profile nodeCfg false = .error e) →
      (provisionNode b profile mc machine mm).machine.status.phase = phaseFailed ∧
      (provisionNode b profile mc machine mm).machine.status.failureReason
        = some "NodeProvisionFailed" ∧
      (provisionNode b profile mc machine mm).machine.status.failureMessage
        = some ("Failed to provision node: " ++ e) ∧
      (provisionNode b profile mc machine mm).err = some e) := by
  constructor
  · intro e he
    simp [provisionNode, he]
  · intro cc e hcc hadd
    simp only [provisionNode, hcc]
    split <;> simp_all

/-- Witness for C7 at concrete failing bridges. -/
theorem provision_failure_reasons_witness :
    (provisionNode bAllFail "minikube" mcW mW mmNoName).machine.status.failureReason
      = some "ClusterConfigNotFound" ∧
    (provisionNode bAddFail "minikube" mcW mW mmNoName).machine.status.failureReason
      = some "NodeProvisionFailed" :=
  ⟨((provision_failure_reasons bAllFail "minikube" mcW mW mmNoName).1 "boom" rfl).2.1,
   ((provision_failure_reasons bAddFail "minikube" mcW mW mmNoName).2 ccTwoNodes
      "add failed" rfl (fun _ => rfl)).2.1⟩

/-- C10: if AddNode succeeds but the follow-up node-info query fails, the
reconcile requeues with no error, the phase stays Provisioning, and
Spec.ProviderID is left unset — so the immediately following normal
reconcile takes the provisioning branch and makes an AddNode call again. -/
theorem transient_describe_reprovision (b : HostBridge) (cluster : CapiCluster)
    (mc : MinikubeCluster) (machine : CapiMachine) (mm : MinikubeMachine)
    (cc : ClusterConfig) (e : String)
    (hf : containsFinalizer mm.meta.finalizers machineFinalizer = true)
    (hpid : mm.spec.providerID = none)
    (hcc : b.getClusterConfig (effectiveProfileName cluster mc) = .ok cc)
    (hadd : ∀ nodeCfg, b.addNode (effectiveProfileName cluster mc) nodeCfg false = .ok ())
    (hinfo : ∀ nodeName, b.getNodeInfo (effectiveProfileName cluster mc) nodeName = .error e) :
    (machineReconcileNormal b cluster mc machine mm).res.requeue = true ∧
    (machineReconcileNormal b cluster mc machine mm).err = none ∧
    (machineReconcileNormal b cluster mc machine mm).machine.status.phase
      = phaseProvisioning ∧
    (machineReconcileNormal b cluster mc machine mm).machine.spec.providerID = none ∧
    callsAddNode (machineReconcileNormal b cluster mc machine mm).calls = true ∧
    callsAddNode (machineReconcileNormal b cluster mc machine
      (machineReconcileNormal b cluster mc machine mm).machine).calls = true := by
  have hstep : machineReconcileNormal b cluster mc machine mm
      = provisionNode b (effectiveProfileName cluster mc) mc machine mm := by
    simp [machineReconcileNormal, hf, hpid]
  have haddcall : ∀ m2 : MinikubeMachine,
      callsAddNode (provisionNode b (effectiveProfileName cluster mc) mc machine m2).calls
        = true := by
    intro m2
    by_cases hn : m2.spec.nodeName = "" <;>
      simp [provisionNode, hcc, hadd, hinfo, hn, callsAddNode, BridgeCall.isAddNode]
  have hmach :
      (provisionNode b (effectiveProfileName cluster mc) mc machine mm).res.requeue = true ∧
      (provisionNode b (effectiveProfileName cluster mc) mc machine mm).err = none ∧
      (provisionNode b (effectiveProfileName cluster mc) mc machine mm).machine.status.phase
        = phaseProvisioning ∧
      (provisionNode b (effectiveProfileName cluster mc) mc machine mm).machine.spec.providerID
        = none ∧
      (provisionNode b (effectiveProfileName cluster mc) mc machine mm).machine.meta.finalizers
        = mm.meta.finalizers := by
    by_cases hn : mm.spec.nodeName = "" <;>
      simp [provisionNode, hcc, hadd, hinfo, hn, hpid]
  have hf2 : containsFinalizer
      (provisionNode b (effectiveProfileName cluster mc) mc machine mm).machine.meta.finalizers
      machineFinalizer = true := by
    rw [hmach.2.2.2.2]; exact hf
  have hpid2 : (provisionNode b (effectiveProfileName cluster mc) mc machine mm).machine.spec.providerID
      = none := hmach.2.2.2.1
  rw [hstep]
  refine ⟨hmach.1, hmach.2.1, hmach.2.2.1, hmach.2.2.2.1, haddcall mm, ?_⟩
  rw [show machineReconcileNormal b cluster mc machine
      (provisionNode b (effectiveProfileName cluster mc) mc machine mm).machine
      = provisionNode b (effectiveProfileName cluster mc) mc machine
          (provisionNode b (effectiveProfileName cluster mc) mc machine mm).machine by
    simp [machineReconcileNormal, hf2, hpid2]]
  exact haddcall _

/-- Witness for C10 at a machine with no provider ID over a bridge whose
node-info query always fails after a successful add. -/
theorem transient_describe_reprovision_witness :
    (machineReconcileNormal bFailInfo clW mcW mW mmNoName).res.requeue = true ∧
    (machineReconcileNormal bFailInfo clW mcW mW mmNoName).machine.spec.providerID = none ∧
    callsAddNode (machineReconcileNormal bFailInfo clW mcW mW
      (machineReconcileNormal bFailInfo clW mcW mW mmNoName).machine).calls = true :=
  ⟨(transient_describe_reprovision bFailInfo clW mcW mW mmNoName ccTwoNodes
      "describe failed" (by decide) rfl rfl (fun _ => rfl) (fun _ => rfl)).1,
   (transient_describe_reprovision bFailInfo clW mcW mW mmNoName ccTwoNodes
      "describe failed" (by decide) rfl rfl (fun _ => rfl) (fun _ => rfl)).2.2.2.1,
   (transient_describe_reprovision bFailInfo clW mcW mW mmNoName ccTwoNodes
      "describe failed" (by decide) rfl rfl (fun _ => rfl) (fun _ => rfl)).2.2.2.2.2⟩

end MinikubeCAPI
